import Mathlib

/-!
Verification of the display-configuration core of `gresolutions.c`:
the EDID identification-block decoder (`parseedid`), the refresh-rate
calculator (`mode_refresh`), the per-output mode-catalog construction in
`activate`, and the mode-switch handler `row_activated`.

Machine integers are modelled as `Nat` (an EDID byte is a `Nat` produced by
`unsigned char` reads, kept below 256 by explicit `% 256` where the C type
wraps), buffers as `List Nat`, and the C doubles of `mode_refresh` as exact
rationals `ℚ`.  All definitions are executable.
-/

set_option maxRecDepth 8000

namespace Gresolutions

/-- A byte of an EDID buffer: `edid[i]` in the C source.  Out-of-range reads
never occur on the 128-byte blocks the program handles; `getD` totalises. -/
def edidByte (edid : List Nat) (i : Nat) : Nat :=
  edid.getD i 0

/-- The result record of `parseedid`: the two diagnostics it can emit via
`g_warning` and the model-name buffer it fills. -/
structure EdidParseResult where
  checksumInvalid : Bool
  headerInvalid : Bool
  modelname : List Nat
deriving DecidableEq, Repr

/-- One step of the header loop (gresolutions.c:88): byte `i` raises no
warning when `((i == 0 || i == 7) && edid[i] == 0x00) || (edid[i] == 0xff)`. -/
def headerByteOk (edid : List Nat) (i : Nat) : Bool :=
  ((i == 0 || i == 7) && edidByte edid i == 0x00) || edidByte edid i == 0xff

/-- The four descriptor-block offsets the scan visits
(`for (i = 0x36; i < 0x7E; i += 0x12)`, gresolutions.c:94). -/
def descOffsets : List Nat :=
  [0x36, 0x48, 0x5A, 0x6C]

/-- The condition under which a descriptor block is taken as a model-name
block (gresolutions.c:95-96): first byte `0x00` and tag byte `0xfc`. -/
def isModelNameBlock (edid : List Nat) (i : Nat) : Bool :=
  edidByte edid i == 0x00 && edidByte edid (i + 3) == 0xfc

/-- The 13 raw name bytes of the descriptor block at offset `i`
(`edid[i+5+j]` for `j = 0..12`, gresolutions.c:97-101). -/
def nameBlockBytes (edid : List Nat) (i : Nat) : List Nat :=
  (List.range 13).map (fun j => edidByte edid (i + 5 + j))

/-- The inner copy loop (gresolutions.c:97-102): every byte of the block's
name field is written into `modelname`, a `0x0a` byte as `0x00` and any other
byte unchanged. -/
def writeName (edid : List Nat) (i : Nat) : List Nat :=
  (nameBlockBytes edid i).map (fun b => if b == 0x0a then 0x00 else b)

/-- `parseedid` (gresolutions.c:73-108) on a 128-byte block and the caller's
`modelname` buffer: the checksum loop over an `unsigned char` accumulator,
the header loop, and the descriptor-block scan, none of which aborts. -/
def parseedid (edid : List Nat) (modelname : List Nat) : EdidParseResult :=
  let sum := (List.range 128).foldl (fun s i => (s + edidByte edid i) % 256) 0
  let checksumInvalid := sum != 0
  let headerInvalid := (List.range 8).any (fun i => !(headerByteOk edid i))
  let modelname := descOffsets.foldl
    (fun buf i => if isModelNameBlock edid i then writeName edid i else buf) modelname
  ⟨checksumInvalid, headerInvalid, modelname⟩

/-- The offset of the descriptor block whose name write survives the scan:
the last visited block satisfying `isModelNameBlock`, `none` when no block
does. -/
def lastNameBlock (edid : List Nat) : Option Nat :=
  descOffsets.foldl (fun acc i => if isModelNameBlock edid i then some i else acc) none

/-- The `modelname` buffer as `activate` initialises it:
`char modelname[13] = ""` (gresolutions.c:193), 13 zero bytes. -/
def initModelname : List Nat :=
  List.replicate 13 0

/-- Reading the buffer as a C string (`"%s"` at gresolutions.c:308): the
bytes before the first `0x00`. -/
def modelnameString (buf : List Nat) : List Nat :=
  buf.takeWhile (fun b => !(b == 0))

/-- The per-output model name `activate` ends up with: empty when the EDID
property is absent or empty, otherwise the string `parseedid` leaves in the
buffer (gresolutions.c:221-223, 308). -/
def outputModelname : Option (List Nat) → List Nat
  | none => modelnameString initModelname
  | some edid =>
      if edid.length = 0 then modelnameString initModelname
      else modelnameString (parseedid edid initModelname).modelname

/-- The header pattern as §4.2 of the specification words it: bytes 0 and 7
equal to `0x00`, bytes 1 to 6 equal to `0xFF`.  Stated from the
specification, for comparison with `parseedid`'s header loop. -/
def headerMatchesPattern (edid : List Nat) : Bool :=
  (List.range 8).all (fun i =>
    if i == 0 || i == 7 then edidByte edid i == 0x00 else edidByte edid i == 0xff)

/-- `XRRModeInfo`, restricted to the fields the program reads: the mode id,
`dotClock`, `hTotal`, `vTotal`, and the two `modeFlags` bits tested by
`mode_refresh` (`RR_DoubleScan`, `RR_Interlace`). -/
structure XRRModeInfo where
  id : Nat
  dotClock : Nat
  hTotal : Nat
  vTotal : Nat
  doubleScan : Bool
  interlace : Bool
deriving DecidableEq, Repr

/-- The effective vertical total of `mode_refresh` (gresolutions.c:128-139):
`vTotal` as a double, doubled under `RR_DoubleScan`, then halved under
`RR_Interlace`. -/
def effectiveVTotal (m : XRRModeInfo) : ℚ :=
  let v : ℚ := (m.vTotal : ℚ)
  let v := if m.doubleScan then v * 2 else v
  if m.interlace then v / 2 else v

/-- `mode_refresh` (gresolutions.c:125-147): the refresh rate
`dotClock / (hTotal * vTotal)` when both totals are nonzero, `0` otherwise.
The C doubles are modelled as exact rationals. -/
def mode_refresh (m : XRRModeInfo) : ℚ :=
  if m.hTotal ≠ 0 ∧ effectiveVTotal m ≠ 0 then
    (m.dotClock : ℚ) / ((m.hTotal : ℚ) * effectiveVTotal m)
  else 0

/-- `XRROutputInfo`, restricted to the fields the program reads: the bound
CRTC (`0` is `None`, no bound CRTC), the connection state, the advertised
mode ids and `npreferred`. -/
structure XRROutputInfo where
  crtc : Nat
  connection : Nat
  modes : List Nat
  npreferred : Nat
deriving DecidableEq, Repr

/-- `RR_Disconnected` of the RandR protocol. -/
def RR_Disconnected : Nat := 1

/-- `RR_Rotate_0` of the RandR protocol. -/
def RR_Rotate_0 : Nat := 1

/-- `find_mode_by_xid` (gresolutions.c:110-122): the first mode of the global
table whose id equals `xid`. -/
def find_mode_by_xid (modes : List XRRModeInfo) (xid : Nat) : Option XRRModeInfo :=
  modes.find? (fun m => xid == m.id)

/-- One row of the list store that matters to the mode catalog: the
`XID_COLUMN` value and the `PREFERRED_COLUMN` flag (gresolutions.c:244-251).
The remaining columns are formatted strings derived from the same mode. -/
structure CatalogEntry where
  xid : Nat
  preferred : Bool
deriving DecidableEq, Repr

/-- The catalog loop of `activate` (gresolutions.c:225-257): walk the
advertised mode ids with their index `n`, skip ids `find_mode_by_xid` does
not resolve, and append a row flagged preferred when `n < npreferred`. -/
def buildCatalog (res : List XRRModeInfo) : List Nat → Nat → Nat → List CatalogEntry
  | [], _, _ => []
  | xid :: rest, n, npref =>
    match find_mode_by_xid res xid with
    | none => buildCatalog res rest (n + 1) npref
    | some _ => ⟨xid, decide (n < npref)⟩ :: buildCatalog res rest (n + 1) npref

/-- The per-output part of `activate` (gresolutions.c:211-257): a
disconnected output, an output with no bound CRTC, or a failed CRTC-info
fetch is skipped; otherwise the catalog rows are built. -/
def activateOutput (res : List XRRModeInfo) (crtcInfoOk : Bool)
    (info : XRROutputInfo) : Option (List CatalogEntry) :=
  if info.connection == RR_Disconnected then none
  else if info.crtc == 0 then none
  else if !crtcInfoOk then none
  else some (buildCatalog res info.modes 0 info.npreferred)

/-- The `XRRSetCrtcConfig` request `row_activated` issues
(gresolutions.c:163-164): target CRTC, position, mode, rotation and the
output set handed to the server. -/
structure SetCrtcConfigRequest where
  crtc : Nat
  x : Int
  y : Int
  mode : Nat
  rotation : Nat
  outputs : List Nat
deriving DecidableEq, Repr

/-- The server-side state of a CRTC, as §3 of the specification describes it
together with the position and rotation `XRRSetCrtcConfig` addresses. -/
structure CrtcState where
  x : Int
  y : Int
  mode : Nat
  rotation : Nat
  outputs : List Nat
deriving DecidableEq, Repr

/-- `row_activated` (gresolutions.c:149-166): when the tree-path resolves to
a row carrying mode id `xid`, issue `XRRSetCrtcConfig(dpy, res,
output_info->crtc, CurrentTime, 0, 0, xid, RR_Rotate_0, &output, 1)`; when
it does not, do nothing.  `rowXid` is the `XID_COLUMN` value of the resolved
row, `none` when `gtk_tree_model_get_iter` fails. -/
def row_activated (rowXid : Option Nat) (info : XRROutputInfo) (outputId : Nat) :
    Option SetCrtcConfigRequest :=
  match rowXid with
  | none => none
  | some xid => some ⟨info.crtc, 0, 0, xid, RR_Rotate_0, [outputId]⟩

/-- Modelled from the spec: the Display Server Binding's commit capability
(§6, "commit a CRTC configuration (target mode, position, rotation, output
set) for a given CRTC identifier") — the server, an external collaborator not
part of this repository, replaces the CRTC's mode, position, rotation and
output set with the request's values. -/
def applySetCrtcConfig (_before : CrtcState) (req : SetCrtcConfigRequest) : CrtcState :=
  ⟨req.x, req.y, req.mode, req.rotation, req.outputs⟩

/-! Concrete 128-byte blocks used to instantiate the theorems. -/

/-- A descriptor block that is not a model-name block: its first byte is
nonzero, so the scan skips it. -/
def fillerBlock : List Nat :=
  0x01 :: List.replicate 17 0

/-- The well-formed EDID header `00 FF FF FF FF FF FF 00`. -/
def edidHeader : List Nat :=
  [0x00, 0xff, 0xff, 0xff, 0xff, 0xff, 0xff, 0x00]

/-- A model-name descriptor block whose name field is the single byte `b`
followed by line-feed padding. -/
def nameBlock (b : Nat) : List Nat :=
  [0x00, 0x00, 0x00, 0xfc, 0x00, b] ++ List.replicate 12 0x0a

/-- A model-name descriptor block carrying the name `"ABC"` terminated by a
line feed. -/
def abcNameBlock : List Nat :=
  [0x00, 0x00, 0x00, 0xfc, 0x00, 0x41, 0x42, 0x43] ++ List.replicate 10 0x0a

/-- A well-formed block with the `"ABC"` descriptor at offset `0x36` and no
other model-name descriptor. -/
def abcEdid : List Nat :=
  edidHeader ++ List.replicate 46 0x00 ++ abcNameBlock
    ++ fillerBlock ++ fillerBlock ++ fillerBlock ++ [0x00, 0x00]

/-- A block whose descriptor at `0x36` has first bytes `00 01` (so its first
two bytes are not `00 00`) yet tag byte `0xfc` and name field starting
`'A'`. -/
def firstByteOnlyEdid : List Nat :=
  edidHeader ++ List.replicate 46 0x00
    ++ ([0x00, 0x01, 0x00, 0xfc, 0x00, 0x41] ++ List.replicate 12 0x0a)
    ++ fillerBlock ++ fillerBlock ++ fillerBlock ++ [0x00, 0x00]

/-- A block with model-name descriptors at both `0x36` (name `"A"`) and
`0x6C` (name `"B"`). -/
def twoNameBlocksEdid : List Nat :=
  edidHeader ++ List.replicate 46 0x00 ++ nameBlock 0x41
    ++ fillerBlock ++ fillerBlock ++ nameBlock 0x42 ++ [0x00, 0x00]

/-- A block whose model-name field is `'A' 0x0A 'B'` followed by line-feed
padding: a byte follows the first line feed. -/
def partialNewlineEdid : List Nat :=
  edidHeader ++ List.replicate 46 0x00
    ++ ([0x00, 0x00, 0x00, 0xfc, 0x00, 0x41, 0x0a, 0x42] ++ List.replicate 10 0x0a)
    ++ fillerBlock ++ fillerBlock ++ fillerBlock ++ [0x00, 0x00]

/-- A block whose byte 0 is `0xFF` and whose bytes 1..7 match the well-formed
header: it deviates from the documented header pattern at position 0. -/
def ffHeaderEdid : List Nat :=
  [0xff, 0xff, 0xff, 0xff, 0xff, 0xff, 0xff, 0x00] ++ List.replicate 120 0x00

/-- The all-zero 128-byte block. -/
def zeroEdid : List Nat :=
  List.replicate 128 0

/-- The all-ones 128-byte block: its byte sum is 128, so its checksum is
invalid. -/
def onesEdid : List Nat :=
  List.replicate 128 1

/-- A global mode table with ids 10, 11 and 13 (id 12 is absent). -/
def exampleModeTable : List XRRModeInfo :=
  [⟨10, 65000000, 1344, 806, false, false⟩,
   ⟨11, 108000000, 1688, 1066, false, false⟩,
   ⟨13, 25175000, 800, 525, false, false⟩]

/-- A connected output with a bound CRTC advertising modes 10, 11, 12, 13
with `npreferred = 2`. -/
def exampleOutput : XRROutputInfo :=
  ⟨5, 0, [10, 11, 12, 13], 2⟩

/-! Helper lemmas. -/

/-- Folding `(· + f i) % 256` mirrors the wraparound addition of the
`unsigned char` checksum accumulator: the result is the plain sum modulo
256. -/
lemma foldl_add_mod (f : Nat → Nat) :
    ∀ (l : List Nat) (s : Nat),
      l.foldl (fun a i => (a + f i) % 256) (s % 256) = (s + (l.map f).sum) % 256 := by
  intro l
  induction l with
  | nil => intro s; simp
  | cons i l ih =>
    intro s
    simp only [List.foldl_cons, List.map_cons, List.sum_cons]
    rw [Nat.mod_add_mod, ih (s + f i), Nat.add_assoc]

/-- The checksum loop of `parseedid` computes the sum of the 128 bytes
modulo 256. -/
lemma checksum_fold (edid : List Nat) :
    (List.range 128).foldl (fun s i => (s + edidByte edid i) % 256) 0
      = ((List.range 128).map (edidByte edid)).sum % 256 := by
  have h := foldl_add_mod (edidByte edid) (List.range 128) 0
  simpa using h

/-- Reading a buffer written with `0x0a ↦ 0x00` as a C string truncates the
raw bytes at the first byte equal to `0x0a` or `0x00`. -/
lemma takeWhile_writeMap (l : List Nat) :
    (l.map (fun b => if b == 0x0a then 0x00 else b)).takeWhile (fun b => !(b == 0))
      = l.takeWhile (fun b => !(b == 0x0a || b == 0)) := by
  induction l with
  | nil => rfl
  | cons a l ih =>
    by_cases h : a = 0x0a
    · subst h; rfl
    · by_cases h0 : a = 0
      · subst h0; rfl
      · simp only [List.map_cons, List.takeWhile_cons]
        simp [h, h0]
        simpa using ih

/-- When no byte is `0x0a`, writing the name field copies it unchanged. -/
lemma map_repl_id (l : List Nat) (h : ∀ b ∈ l, b ≠ 0x0a) :
    l.map (fun b => if b == 0x0a then 0x00 else b) = l := by
  induction l with
  | nil => rfl
  | cons a l ih =>
    simp only [List.map_cons]
    rw [if_neg (by simpa using h a (List.mem_cons_self a l)),
      ih (fun b hb => h b (List.mem_cons_of_mem a hb))]

/-- The descriptor-block scan of `parseedid` leaves the write of the last
matching block in the buffer, or the caller's buffer when no block
matches. -/
lemma parseedid_modelname_eq (edid buf : List Nat) :
    (parseedid edid buf).modelname
      = match lastNameBlock edid with
        | none => buf
        | some i => writeName edid i := by
  show descOffsets.foldl
      (fun b i => if isModelNameBlock edid i then writeName edid i else b) buf
    = _
  simp only [descOffsets, lastNameBlock, List.foldl_cons, List.foldl_nil]
  by_cases h1 : isModelNameBlock edid 0x36 <;>
  by_cases h2 : isModelNameBlock edid 0x48 <;>
  by_cases h3 : isModelNameBlock edid 0x5A <;>
  by_cases h4 : isModelNameBlock edid 0x6C <;>
  simp [h1, h2, h3, h4]

/-- The surviving write is the last matching offset in scan order. -/
lemma lastNameBlock_eq_filter_getLast (edid : List Nat) :
    lastNameBlock edid
      = (descOffsets.filter (fun o => isModelNameBlock edid o)).getLast? := by
  simp only [lastNameBlock, descOffsets, List.foldl_cons, List.foldl_nil, List.filter]
  by_cases h1 : isModelNameBlock edid 0x36 <;>
  by_cases h2 : isModelNameBlock edid 0x48 <;>
  by_cases h3 : isModelNameBlock edid 0x5A <;>
  by_cases h4 : isModelNameBlock edid 0x6C <;>
  simp [h1, h2, h3, h4, List.getLast?]

/-- Indexing a 13-byte mapped range. -/
lemma getD_map_range (f : Nat → Nat) (j : Nat) (hj : j < 13) :
    ((List.range 13).map f).getD j 0 = f j := by
  rw [List.getD_eq_getElem?_getD, List.getElem?_map, List.getElem?_range hj]
  rfl

/-- The catalog loop of `activate`, started at index `n`, produces one entry
per resolvable advertised id, in order, flagged by the advertised index. -/
lemma buildCatalog_enumFrom (res : List XRRModeInfo) (npref : Nat) :
    ∀ (l : List Nat) (n : Nat),
      buildCatalog res l n npref
        = (l.enumFrom n).filterMap (fun p =>
            (find_mode_by_xid res p.2).map (fun _ => ⟨p.2, decide (p.1 < npref)⟩)) := by
  intro l
  induction l with
  | nil => intro n; rfl
  | cons x rest ih =>
    intro n
    simp only [buildCatalog, List.enumFrom, List.filterMap_cons]
    cases h : find_mode_by_xid res x <;> simp [h, ih]

/-- The header loop warns exactly when some byte position in 0..7 fails the
code's per-byte condition. -/
lemma header_any_iff (edid : List Nat) :
    ((List.range 8).any (fun i => !(headerByteOk edid i)) = true)
      ↔ ∃ i, i < 8 ∧
          ¬(((i = 0 ∨ i = 7) ∧ edidByte edid i = 0x00) ∨ edidByte edid i = 0xff) := by
  simp only [List.any_eq_true, List.mem_range, Bool.not_eq_eq_eq_not, Bool.not_true,
    headerByteOk, Bool.or_eq_false_iff, Bool.and_eq_false_iff]
  constructor
  · rintro ⟨i, hi, h⟩
    refine ⟨i, hi, ?_⟩
    simp only [Bool.or_eq_false_iff, beq_eq_false_iff_ne, ne_eq, Bool.and_eq_false_iff] at h
    tauto
  · rintro ⟨i, hi, h⟩
    refine ⟨i, hi, ?_⟩
    simp only [Bool.or_eq_false_iff, beq_eq_false_iff_ne, ne_eq, Bool.and_eq_false_iff]
    tauto

/-- `effectiveVTotal` as one closed formula: the vertical total doubled under
doublescan, divided by two under interlace. -/
lemma effectiveVTotal_form (m : XRRModeInfo) :
    effectiveVTotal m
      = (if m.doubleScan then (m.vTotal : ℚ) * 2 else (m.vTotal : ℚ))
          / (if m.interlace then 2 else 1) := by
  unfold effectiveVTotal
  cases m.doubleScan <;> cases m.interlace <;> simp

/-- A nonzero vertical total keeps the effective vertical total nonzero. -/
lemma effectiveVTotal_ne_zero (m : XRRModeInfo) (hv : m.vTotal ≠ 0) :
    effectiveVTotal m ≠ 0 := by
  have hv0 : (m.vTotal : ℚ) ≠ 0 := Nat.cast_ne_zero.mpr hv
  unfold effectiveVTotal
  cases m.doubleScan <;> cases m.interlace <;>
    simp [div_eq_zero_iff, mul_eq_zero, hv0]

/-! Claim theorems. -/

/-- C5: for `hTotal > 0` and `vTotal > 0`, `mode_refresh` equals the pixel
clock divided by `hTotal` times the effective vertical total, where the
vertical total is doubled first when doublescan is set and then halved when
interlace is set; with both flags clear it equals
`dotClock / (hTotal * vTotal)` exactly. -/
theorem mode_refresh_formula (m : XRRModeInfo) (hh : m.hTotal ≠ 0) (hv : m.vTotal ≠ 0) :
    mode_refresh m
      = (m.dotClock : ℚ) / ((m.hTotal : ℚ) *
          ((if m.doubleScan then (m.vTotal : ℚ) * 2 else (m.vTotal : ℚ))
            / (if m.interlace then 2 else 1)))
    ∧ (m.doubleScan = false → m.interlace = false →
        mode_refresh m = (m.dotClock : ℚ) / ((m.hTotal : ℚ) * (m.vTotal : ℚ))) := by
  have heff0 : effectiveVTotal m ≠ 0 := effectiveVTotal_ne_zero m hv
  constructor
  · rw [mode_refresh, if_pos ⟨hh, heff0⟩, effectiveVTotal_form]
  · intro hds hil
    rw [mode_refresh, if_pos ⟨hh, heff0⟩, effectiveVTotal_form, hds, hil]
    simp

/-- C5 witness: a mode with pixel clock 6, totals 2 and 3 and both flags
clear refreshes at exactly 1 Hz. -/
theorem mode_refresh_formula_witness :
    mode_refresh ⟨1, 6, 2, 3, false, false⟩ = 1 := by
  have h := (mode_refresh_formula ⟨1, 6, 2, 3, false, false⟩ (by decide) (by decide)).2 rfl rfl
  rw [h]; norm_num

/-- C6: `mode_refresh` is total and returns `0` whenever `hTotal` is zero or
the effective vertical total (after the doublescan/interlace adjustments) is
zero; no division is reached in that case. -/
theorem mode_refresh_zero (m : XRRModeInfo)
    (h : m.hTotal = 0 ∨ effectiveVTotal m = 0) :
    mode_refresh m = 0 := by
  have hno : ¬(m.hTotal ≠ 0 ∧ effectiveVTotal m ≠ 0) := by
    rcases h with h | h
    · exact fun hc => hc.1 h
    · exact fun hc => hc.2 h
  rw [mode_refresh, if_neg hno]

/-- C6 witness: a mode with `hTotal = 0` yields rate `0`. -/
theorem mode_refresh_zero_witness :
    mode_refresh ⟨1, 6, 0, 3, false, false⟩ = 0 :=
  mode_refresh_zero ⟨1, 6, 0, 3, false, false⟩ (Or.inl rfl)

/-- C4 (amended): the header diagnostic is raised if and only if some
position 0..7 fails the code's acceptance condition, under which positions
1-6 must equal `0xFF` while positions 0 and 7 are accepted when they equal
`0x00` or `0xFF`. -/
theorem parseedid_header_diagnostic (edid : List Nat) :
    (parseedid edid initModelname).headerInvalid = true
      ↔ ∃ i, i < 8 ∧
          ¬(((i = 0 ∨ i = 7) ∧ edidByte edid i = 0x00) ∨ edidByte edid i = 0xff) := by
  have h : (parseedid edid initModelname).headerInvalid
      = (List.range 8).any (fun i => !(headerByteOk edid i)) := rfl
  rw [h]
  exact header_any_iff edid

/-- C4 witness: the all-zero block raises the header diagnostic (byte 1 is
neither accepted value). -/
theorem parseedid_header_diagnostic_witness :
    (parseedid zeroEdid initModelname).headerInvalid = true :=
  (parseedid_header_diagnostic zeroEdid).mpr ⟨1, by decide, by decide⟩

/-- C4 counterexample: a block whose byte 0 is `0xFF` deviates from the
pattern `00 FF FF FF FF FF FF 00` (so the claim requires the diagnostic),
yet the code raises no header warning, because its condition also accepts
`0xFF` at positions 0 and 7. -/
theorem parseedid_header_counterexample :
    ffHeaderEdid.length = 128
    ∧ headerMatchesPattern ffHeaderEdid = false
    ∧ (parseedid ffHeaderEdid initModelname).headerInvalid = false := by
  refine ⟨by decide, by decide, by decide⟩

/-- C7: the checksum diagnostic is raised if and only if the sum of the 128
bytes modulo 256 is nonzero; neither diagnostic aborts decoding — the
model-name buffer is still the result of the descriptor scan — and a missing
or empty identification block yields the empty name. -/
theorem parseedid_checksum_diagnostic (edid : List Nat) :
    ((parseedid edid initModelname).checksumInvalid = true
      ↔ ((List.range 128).map (edidByte edid)).sum % 256 ≠ 0)
    ∧ (parseedid edid initModelname).modelname
        = (match lastNameBlock edid with
           | none => initModelname
           | some i => writeName edid i)
    ∧ outputModelname none = []
    ∧ outputModelname (some []) = [] := by
  refine ⟨?_, parseedid_modelname_eq edid initModelname, rfl, rfl⟩
  have h : (parseedid edid initModelname).checksumInvalid
      = ((List.range 128).foldl (fun s i => (s + edidByte edid i) % 256) 0 != 0) := rfl
  rw [h, checksum_fold]
  simp [bne_iff_ne]

/-- C7 witness: the all-ones block (byte sum 128) raises the checksum
diagnostic. -/
theorem parseedid_checksum_diagnostic_witness :
    (parseedid onesEdid initModelname).checksumInvalid = true :=
  (parseedid_checksum_diagnostic onesEdid).1.mpr (by decide)

/-- C3 (amended): the scan visits the blocks at `0x36, 0x48, 0x5A, 0x6C`; a
block matches when its first byte is `0x00` (the second byte is not
examined) and its tag byte at offset 3 is `0xfc`; the decoded name is then
the 13 bytes starting 5 bytes into the last matching block, read as a string
truncated at the first byte equal to `0x0a` or `0x00`; when no block matches
the name is absent (the empty string). -/
theorem parseedid_model_name (edid : List Nat) :
    (lastNameBlock edid = none →
        modelnameString (parseedid edid initModelname).modelname = [])
    ∧ ∀ i, lastNameBlock edid = some i →
        modelnameString (parseedid edid initModelname).modelname
          = (nameBlockBytes edid i).takeWhile (fun b => !(b == 0x0a || b == 0)) := by
  constructor
  · intro h
    rw [parseedid_modelname_eq, h]
    rfl
  · intro i h
    rw [parseedid_modelname_eq, h]
    exact takeWhile_writeMap (nameBlockBytes edid i)

/-- C3 witness: the well-formed block with descriptor
`00 00 00 FC 00 'A' 'B' 'C' 0x0A ...` at `0x36` decodes to exactly
`"ABC"`. -/
theorem parseedid_model_name_witness :
    modelnameString (parseedid abcEdid initModelname).modelname = [0x41, 0x42, 0x43] := by
  have h := (parseedid_model_name abcEdid).2 0x36 (by decide)
  rw [h]
  decide

/-- C3 counterexample: in `firstByteOnlyEdid` no scanned block has first two
bytes `00 00` together with tag `0xfc` — by the claim the name should be
absent — yet the code decodes the name `"A"`, because it examines only the
first byte of a block. -/
theorem parseedid_descriptor_counterexample :
    (descOffsets.all (fun i =>
      !(edidByte firstByteOnlyEdid i == 0x00
        && edidByte firstByteOnlyEdid (i + 1) == 0x00
        && edidByte firstByteOnlyEdid (i + 3) == 0xfc))) = true
    ∧ modelnameString (parseedid firstByteOnlyEdid initModelname).modelname = [0x41] := by
  refine ⟨by decide, by decide⟩

/-- C9: when more than one scanned block carries the model-name tag, the
decoded name is the write of the last matching block in scan order — the
scan does not stop at the first match, later matches overwrite earlier
ones. -/
theorem parseedid_last_match_wins (edid : List Nat) (j : Nat)
    (_h2 : 2 ≤ (descOffsets.filter (fun o => isModelNameBlock edid o)).length)
    (hj : (descOffsets.filter (fun o => isModelNameBlock edid o)).getLast? = some j) :
    (parseedid edid initModelname).modelname = writeName edid j := by
  rw [parseedid_modelname_eq, lastNameBlock_eq_filter_getLast, hj]

/-- C9 witness: with model-name blocks at `0x36` (name `"A"`) and `0x6C`
(name `"B"`), the decoded name is `"B"`, from the last block. -/
theorem parseedid_last_match_wins_witness :
    (parseedid twoNameBlocksEdid initModelname).modelname = writeName twoNameBlocksEdid 0x6C
    ∧ modelnameString (writeName twoNameBlocksEdid 0x6C) = [0x42] :=
  ⟨parseedid_last_match_wins twoNameBlocksEdid 0x6C (by decide) (by decide), by decide⟩

/-- C10: when a model-name descriptor is found the decoder writes exactly 13
bytes: at every position the source byte, with `0x0a` written as `0x00` and
every other byte copied unchanged — so bytes after the first `0x0a` are
still written, and when no source byte is `0x0a` the buffer equals the raw
name field, with no `0x00` terminator introduced by the copy. -/
theorem parseedid_write_behavior (edid : List Nat) (i : Nat)
    (h : lastNameBlock edid = some i) :
    ((parseedid edid initModelname).modelname).length = 13
    ∧ (∀ j, j < 13 →
        ((parseedid edid initModelname).modelname).getD j 0
          = if edidByte edid (i + 5 + j) == 0x0a then 0x00 else edidByte edid (i + 5 + j))
    ∧ (((List.range 13).all (fun j => !(edidByte edid (i + 5 + j) == 0x0a))) = true
        → (parseedid edid initModelname).modelname = nameBlockBytes edid i) := by
  have hb : (parseedid edid initModelname).modelname = writeName edid i := by
    rw [parseedid_modelname_eq, h]
  refine ⟨?_, ?_, ?_⟩
  · rw [hb]
    simp [writeName, nameBlockBytes]
  · intro j hj
    rw [hb, writeName, nameBlockBytes, List.map_map, getD_map_range _ j hj]
    rfl
  · intro hall
    rw [hb, writeName]
    apply map_repl_id
    intro b hmem
    simp only [nameBlockBytes, List.mem_map, List.mem_range] at hmem
    obtain ⟨j, hj, rfl⟩ := hmem
    simp only [List.all_eq_true, List.mem_range] at hall
    simpa using hall j hj

/-- C10 witness: with name field `'A' 0x0A 'B' ...`, position 1 holds the
written terminator and position 2 still holds `'B'`, written after it. -/
theorem parseedid_write_behavior_witness :
    ((parseedid partialNewlineEdid initModelname).modelname).getD 2 0 = 0x42 := by
  have h := (parseedid_write_behavior partialNewlineEdid 0x36 (by decide)).2.1 2 (by decide)
  rw [h]
  decide

/-- C8: for a connected output with an active CRTC (and a successful
CRTC-info fetch), the catalog is exactly one entry per advertised mode id
that resolves in the global mode table, in advertised order with unresolved
ids skipped, and an entry is preferred exactly when its advertised position
is below `npreferred`. -/
theorem activate_catalog_characterization (res : List XRRModeInfo) (info : XRROutputInfo)
    (hconn : info.connection ≠ RR_Disconnected) (hcrtc : info.crtc ≠ 0) :
    activateOutput res true info
      = some ((info.modes.enumFrom 0).filterMap (fun p =>
          (find_mode_by_xid res p.2).map
            (fun _ => ⟨p.2, decide (p.1 < info.npreferred)⟩))) := by
  have h1 : (info.connection == RR_Disconnected) = false := by simpa using hconn
  have h2 : (info.crtc == 0) = false := by simpa using hcrtc
  simp only [activateOutput, h1, h2, Bool.not_true, Bool.false_eq_true, if_false,
    Bool.not_false, Bool.true_eq_false, if_true, Option.some.injEq]
  exact buildCatalog_enumFrom res info.npreferred info.modes 0

/-- C8 witness: four advertised modes with id 12 unresolved and
`npreferred = 2` yield entries for 10, 11, 13 in order, the first two
preferred. -/
theorem activate_catalog_characterization_witness :
    activateOutput exampleModeTable true exampleOutput
      = some [⟨10, true⟩, ⟨11, true⟩, ⟨13, false⟩] := by
  rw [activate_catalog_characterization exampleModeTable exampleOutput
    (by decide) (by decide)]
  decide

/-- C1 (amended): for an output with a bound CRTC, activating a row commits
the row's mode id as the CRTC's mode and leaves exactly that one output
driven by the CRTC, but resets the CRTC's position to `(0, 0)` and its
rotation to `RR_Rotate_0` instead of preserving the existing values. -/
theorem row_activated_commit_effect (c : CrtcState) (info : XRROutputInfo)
    (xid outputId : Nat) (_h : info.crtc ≠ 0) :
    row_activated (some xid) info outputId
      = some ⟨info.crtc, 0, 0, xid, RR_Rotate_0, [outputId]⟩
    ∧ applySetCrtcConfig c ⟨info.crtc, 0, 0, xid, RR_Rotate_0, [outputId]⟩
      = ⟨0, 0, xid, RR_Rotate_0, [outputId]⟩ :=
  ⟨rfl, rfl⟩

/-- C1 witness: with CRTC 3 bound, activating mode 42 for output 7 turns a
CRTC at position (100, 50) with rotation 2 into mode 42 at (0, 0) with
rotation `RR_Rotate_0`, driving exactly output 7. -/
theorem row_activated_commit_effect_witness :
    row_activated (some 42) ⟨3, 0, [], 0⟩ 7 = some ⟨3, 0, 0, 42, RR_Rotate_0, [7]⟩
    ∧ applySetCrtcConfig ⟨100, 50, 5, 2, [7]⟩ ⟨3, 0, 0, 42, RR_Rotate_0, [7]⟩
      = ⟨0, 0, 42, RR_Rotate_0, [7]⟩ :=
  row_activated_commit_effect ⟨100, 50, 5, 2, [7]⟩ ⟨3, 0, [], 0⟩ 42 7 (by decide)

/-- C1 counterexample: a CRTC at position (100, 50) with rotation 2 does not
keep its position or rotation across the commit `row_activated` issues — the
request carries `x = 0, y = 0, RR_Rotate_0` — refuting that the operation
preserves the CRTC's existing position and rotation. -/
theorem row_activated_position_counterexample :
    (⟨3, 0, [], 0⟩ : XRROutputInfo).crtc ≠ 0
    ∧ row_activated (some 42) ⟨3, 0, [], 0⟩ 7 = some ⟨3, 0, 0, 42, RR_Rotate_0, [7]⟩
    ∧ (applySetCrtcConfig ⟨100, 50, 5, 2, [7]⟩ ⟨3, 0, 0, 42, RR_Rotate_0, [7]⟩).x ≠ 100
    ∧ (applySetCrtcConfig ⟨100, 50, 5, 2, [7]⟩
        ⟨3, 0, 0, 42, RR_Rotate_0, [7]⟩).rotation ≠ 2 := by
  refine ⟨by decide, rfl, by decide, by decide⟩

/-- C2 (amended): for an output whose bound-CRTC field is empty (`None`,
zero), `row_activated` performs no check: it still issues the
configuration-commit request to the server, passing the zero CRTC
identifier, and no distinct "no CRTC" error exists in the code. -/
theorem row_activated_unconditional_request (info : XRROutputInfo)
    (xid outputId : Nat) (h : info.crtc = 0) :
    row_activated (some xid) info outputId
      = some ⟨0, 0, 0, xid, RR_Rotate_0, [outputId]⟩ := by
  simp [row_activated, h]

/-- C2 witness: with no bound CRTC, activating mode 42 for output 7 still
issues a request, with CRTC identifier 0. -/
theorem row_activated_unconditional_request_witness :
    row_activated (some 42) ⟨0, 0, [], 0⟩ 7 = some ⟨0, 0, 0, 42, RR_Rotate_0, [7]⟩ :=
  row_activated_unconditional_request ⟨0, 0, [], 0⟩ 42 7 rfl

/-- C2 counterexample: an output with an empty bound-CRTC field does not
make `row_activated` skip the server call — the result is a request, not
`none` — refuting that the operation performs no call to the display
server. -/
theorem row_activated_no_crtc_counterexample :
    (⟨0, 0, [], 0⟩ : XRROutputInfo).crtc = 0
    ∧ row_activated (some 42) ⟨0, 0, [], 0⟩ 7 ≠ none := by
  refine ⟨rfl, by decide⟩

end Gresolutions
